import Mathlib

/-!
Shallow embedding of the core routines of the SU2 incompressible
Navier-Stokes solver (CIncNSSolver.cpp, CNSSolver.hpp) and of the
quadrilateral primal-grid element (CQuadrilateral.cpp), together with
theorems settling the specification claims about them.

Real-valued solver quantities (su2double) are modelled as rationals, so
every definition is executable; limit statements about the flux-weighted
CHT wall temperature use the metric topology of the rationals.
-/

/- ----------------------------------------------------------------- -/
/- CQuadrilateral (Common/src/geometry/primal_grid/CQuadrilateral.cpp) -/
/- ----------------------------------------------------------------- -/

/-- Node slots of a quadrilateral after CQuadrilateral::Change_Orientation,
which performs std swap of Nodes[1] and Nodes[3] (CQuadrilateral.cpp,
lines 61-63). Slots 0 and 2 are untouched. -/
def Change_Orientation (Nodes : Fin 4 → ℕ) : Fin 4 → ℕ :=
  fun k => if k = 1 then Nodes 3 else if k = 3 then Nodes 1 else Nodes k

/-- Multiset of the four node indices of a quadrilateral element. -/
def nodeMultiset (Nodes : Fin 4 → ℕ) : Multiset ℕ :=
  {Nodes 0, Nodes 1, Nodes 2, Nodes 3}

/- ----------------------------------------------------------------- -/
/- Conjugate-heat variable storage (CNSSolver.hpp, lines 208-228, and  -/
/- the CIncNSSolver constructor, CIncNSSolver.cpp lines 229-242)       -/
/- ----------------------------------------------------------------- -/

/-- Read accessor CNSSolver::GetConjugateHeatVariable (CNSSolver.hpp,
lines 208-212): returns HeatConjugateVar[val_marker][val_vertex][pos_var].
The jagged array is modelled as a total function on (marker, vertex,
component) triples, with 4 components per vertex (nHeatConjugateVar = 4). -/
def GetConjugateHeatVariable (HeatConjugateVar : ℕ → ℕ → Fin 4 → ℚ)
    (val_marker val_vertex : ℕ) (pos_var : Fin 4) : ℚ :=
  HeatConjugateVar val_marker val_vertex pos_var

/-- Write accessor CNSSolver::SetConjugateHeatVariable (CNSSolver.hpp,
lines 222-228): stores relaxation_factor*val_var +
(1-relaxation_factor)*old at the addressed triple, leaving every other
triple unchanged. -/
def SetConjugateHeatVariable (HeatConjugateVar : ℕ → ℕ → Fin 4 → ℚ)
    (val_marker val_vertex : ℕ) (pos_var : Fin 4)
    (relaxation_factor val_var : ℚ) : ℕ → ℕ → Fin 4 → ℚ :=
  fun m v p =>
    if m = val_marker ∧ v = val_vertex ∧ p = pos_var then
      relaxation_factor * val_var +
        (1 - relaxation_factor) * HeatConjugateVar val_marker val_vertex pos_var
    else HeatConjugateVar m v p

/-- Initial contents of HeatConjugateVar as set by the CIncNSSolver
constructor (CIncNSSolver.cpp, lines 229-242): component 0 holds
Temperature_FreeStreamND, components 1..3 hold zero, for every marker
and vertex. -/
def HeatConjugateVar_init (Temperature_FreeStreamND : ℚ) : ℕ → ℕ → Fin 4 → ℚ :=
  fun _ _ p => if p = 0 then Temperature_FreeStreamND else 0

/- ----------------------------------------------------------------- -/
/- SetTime_Step (CIncNSSolver.cpp, lines 643-874)                      -/
/- ----------------------------------------------------------------- -/

/-- Fixed viscous-stability constant K_v = 0.25 of
CIncNSSolver::SetTime_Step (CIncNSSolver.cpp, line 646). -/
def K_v : ℚ := 1 / 4

/-- Per-point body of the steady time-step loop of
CIncNSSolver::SetTime_Step (CIncNSSolver.cpp, lines 780-799): when the
control volume is nonzero, take the minimum of the inviscid and viscous
candidate steps and clip at Max_DeltaTime; otherwise store zero without
touching the spectral radii. -/
def SetTime_Step_point (CFL Vol lambdaInv lambdaVisc Max_DeltaTime : ℚ) : ℚ :=
  if Vol ≠ 0 then
    let Local_Delta_Time := CFL * Vol / lambdaInv
    let Local_Delta_Time_Visc := CFL * K_v * Vol * Vol / lambdaVisc
    let t := min Local_Delta_Time Local_Delta_Time_Visc
    if t > Max_DeltaTime then Max_DeltaTime else t
  else 0

/-- Dual-time pseudo-step clip at the end of CIncNSSolver::SetTime_Step
(CIncNSSolver.cpp, lines 865-872): with an explicit scheme the stored
step becomes min((2/3)*Delta_UnstTimeND, previous step); with an
implicit scheme the stored step is left as is. -/
def SetTime_Step_dualTimeClip (implicit : Bool) (Delta_UnstTimeND dt : ℚ) : ℚ :=
  if implicit then dt else min (2 / 3 * Delta_UnstTimeND) dt

/-- Composition of the steady per-point step with the dual-time clip:
the value held by a point at the end of SetTime_Step in dual-time mode. -/
def SetTime_Step_dualTime (implicit : Bool)
    (Delta_UnstTimeND CFL Vol lambdaInv lambdaVisc Max_DeltaTime : ℚ) : ℚ :=
  SetTime_Step_dualTimeClip implicit Delta_UnstTimeND
    (SetTime_Step_point CFL Vol lambdaInv lambdaVisc Max_DeltaTime)

/- ----------------------------------------------------------------- -/
/- BC_Isothermal_Wall energy terms (CIncNSSolver.cpp, lines 1100-1159) -/
/- ----------------------------------------------------------------- -/

/-- Normal temperature gradient of CIncNSSolver::BC_Isothermal_Wall
(CIncNSSolver.cpp, line 1126): dTdn = -(T(Point_Normal) - Twall)/dist_ij. -/
def BC_Isothermal_dTdn (Twall T_PointNormal dist_ij : ℚ) : ℚ :=
  -(T_PointNormal - Twall) / dist_ij

/-- Energy-row viscous residual of CIncNSSolver::BC_Isothermal_Wall
(CIncNSSolver.cpp, line 1135): Res_Visc[nDim+1] =
thermal_conductivity*dTdn*Area. -/
def BC_Isothermal_ResViscEnergy (thermal_conductivity dTdn Area : ℚ) : ℚ :=
  thermal_conductivity * dTdn * Area

/- ----------------------------------------------------------------- -/
/- Viscous_Residual (CIncNSSolver.cpp, lines 876-926)                  -/
/- ----------------------------------------------------------------- -/

/-- Residual-vector operation CSysVector::SubtractBlock as used at line
915: subtract the per-edge flux vector from the block row of one point.
The residual vector is modelled as a function from point index and
variable index to the stored value. -/
def SubtractBlock {nP nV : ℕ} (R : Fin nP → Fin nV → ℚ) (i : Fin nP)
    (f : Fin nV → ℚ) : Fin nP → Fin nV → ℚ :=
  fun p v => if p = i then R p v - f v else R p v

/-- Residual-vector operation CSysVector::AddBlock as used at line 916:
add the per-edge flux vector to the block row of one point. -/
def AddBlock {nP nV : ℕ} (R : Fin nP → Fin nV → ℚ) (j : Fin nP)
    (f : Fin nV → ℚ) : Fin nP → Fin nV → ℚ :=
  fun p v => if p = j then R p v + f v else R p v

/-- Per-edge update of CIncNSSolver::Viscous_Residual (CIncNSSolver.cpp,
lines 911-916): the one flux vector returned by the numerics functor is
first subtracted from the residual of iPoint and then added to the
residual of jPoint. -/
def Viscous_Residual_edge {nP nV : ℕ} (R : Fin nP → Fin nV → ℚ)
    (iPoint jPoint : Fin nP) (residual : Fin nV → ℚ) : Fin nP → Fin nV → ℚ :=
  AddBlock (SubtractBlock R iPoint residual) jPoint residual

/-- Edge loop of CIncNSSolver::Viscous_Residual (CIncNSSolver.cpp, lines
885-924): fold of the per-edge update over a list of edges, each edge
carrying its endpoint pair and the flux vector the functor returns for
it. -/
def Viscous_Residual_loop {nP nV : ℕ}
    (edges : List ((Fin nP × Fin nP) × (Fin nV → ℚ)))
    (R : Fin nP → Fin nV → ℚ) : Fin nP → Fin nV → ℚ :=
  edges.foldl (fun S e => Viscous_Residual_edge S e.1.1 e.1.2 e.2) R

/- ----------------------------------------------------------------- -/
/- Wall-function guards and CHT coupling                               -/
/- (CIncNSSolver.cpp, lines 928-1303)                                  -/
/- ----------------------------------------------------------------- -/

/-- Numeric code of the wall-function option NO_WALL_FUNCTION. The enum
header is not part of the sampled source; only distinctness of the codes
is used, matching the comparisons in CIncNSSolver.cpp. -/
def NO_WALL_FUNCTION : ℕ := 0

/-- Numeric code of a wall-function option other than none
(STANDARD_WALL_FUNCTION), distinct from NO_WALL_FUNCTION. -/
def STANDARD_WALL_FUNCTION : ℕ := 1

/-- Numeric code of the CHT coupling option
DIRECT_TEMPERATURE_NEUMANN_HEATFLUX; the four coupling codes are
pairwise distinct, matching the comparisons at lines 1244-1270. -/
def DIRECT_TEMPERATURE_NEUMANN_HEATFLUX : ℕ := 0

/-- Numeric code of the CHT coupling option
AVERAGED_TEMPERATURE_NEUMANN_HEATFLUX. -/
def AVERAGED_TEMPERATURE_NEUMANN_HEATFLUX : ℕ := 1

/-- Numeric code of the CHT coupling option
DIRECT_TEMPERATURE_ROBIN_HEATFLUX. -/
def DIRECT_TEMPERATURE_ROBIN_HEATFLUX : ℕ := 2

/-- Numeric code of the CHT coupling option
AVERAGED_TEMPERATURE_ROBIN_HEATFLUX. -/
def AVERAGED_TEMPERATURE_ROBIN_HEATFLUX : ℕ := 3

/-- Wall-function guard of CIncNSSolver::BC_Isothermal_Wall
(CIncNSSolver.cpp, lines 1054-1057), executed before the vertex loop: a
treatment other than NO_WALL_FUNCTION raises a fatal error
(SU2_MPI::Error), modelled as the error case of Except. -/
def BC_Isothermal_Wall_wallFunctionCheck (Wall_Function : ℕ) : Except String Unit :=
  if Wall_Function ≠ NO_WALL_FUNCTION then
    Except.error "Wall function treatment not implemented yet."
  else Except.ok ()

/-- Wall-function guard of CIncNSSolver::BC_ConjugateHeat_Interface
(CIncNSSolver.cpp, lines 1196-1199), executed before the vertex loop. -/
def BC_ConjugateHeat_Interface_wallFunctionCheck (Wall_Function : ℕ) : Except String Unit :=
  if Wall_Function ≠ NO_WALL_FUNCTION then
    Except.error "Wall function treament not implemented yet"
  else Except.ok ()

/-- Wall-function treatment of CIncNSSolver::BC_HeatFlux_Wall: the guard
at lines 947-952 of CIncNSSolver.cpp is commented out in the source, so
the routine performs no wall-function check and proceeds for every
treatment value. -/
def BC_HeatFlux_Wall_wallFunctionCheck (Wall_Function : ℕ) : Except String Unit :=
  Except.ok ()

/-- Energy branch of CIncNSSolver::BC_ConjugateHeat_Interface at one
vertex (CIncNSSolver.cpp, lines 1240-1279): Tconjugate is the stored
conjugate-heat component 0 divided by Temperature_Ref; the averaged
variants take the flux-weighted temperature built from HF_FactorHere =
thermal_conductivity*Viscosity_Ref/dist_ij and HF_FactorConjugate
(stored component 2); the direct variants take Tconjugate; any other
coupling code raises a fatal error. -/
def BC_ConjugateHeat_Twall (Kind_CHT_Coupling : ℕ)
    (heatConjugateVar0 heatConjugateVar2 Temperature_Ref Viscosity_Ref
     There thermal_conductivity dist_ij : ℚ) : Except String ℚ :=
  let Tconjugate := heatConjugateVar0 / Temperature_Ref
  if Kind_CHT_Coupling = AVERAGED_TEMPERATURE_NEUMANN_HEATFLUX ∨
     Kind_CHT_Coupling = AVERAGED_TEMPERATURE_ROBIN_HEATFLUX then
    let HF_FactorHere := thermal_conductivity * Viscosity_Ref / dist_ij
    let HF_FactorConjugate := heatConjugateVar2
    Except.ok ((There * HF_FactorHere + Tconjugate * HF_FactorConjugate) /
                 (HF_FactorHere + HF_FactorConjugate))
  else if Kind_CHT_Coupling = DIRECT_TEMPERATURE_NEUMANN_HEATFLUX ∨
          Kind_CHT_Coupling = DIRECT_TEMPERATURE_ROBIN_HEATFLUX then
    Except.ok Tconjugate
  else
    Except.error "Unknown CHT coupling method."

/-- Flux-weighted wall temperature of the averaged CHT variants
(CIncNSSolver.cpp, line 1267), as a function of the two temperatures and
the two conductance factors, so that the limit behaviour in the
conductance factors can be stated. -/
def Twall_fluxWeighted (There Tconjugate HF_FactorHere HF_FactorConjugate : ℚ) : ℚ :=
  (There * HF_FactorHere + Tconjugate * HF_FactorConjugate) /
    (HF_FactorHere + HF_FactorConjugate)

/- ------------------------------- theorems ------------------------- -/

/-- C8: Change_Orientation swaps node slots 1 and 3, leaves slots 0 and 2
unchanged, preserves the node multiset (hence the node set), and applied
twice restores the original ordering. -/
theorem Change_Orientation_swap13 (Nodes : Fin 4 → ℕ) :
    Change_Orientation Nodes 0 = Nodes 0 ∧
    Change_Orientation Nodes 1 = Nodes 3 ∧
    Change_Orientation Nodes 2 = Nodes 2 ∧
    Change_Orientation Nodes 3 = Nodes 1 ∧
    nodeMultiset (Change_Orientation Nodes) = nodeMultiset Nodes ∧
    Change_Orientation (Change_Orientation Nodes) = Nodes := by
  refine ⟨rfl, rfl, rfl, rfl, ?_, ?_⟩
  · show (Nodes 0 ::ₘ Nodes 3 ::ₘ Nodes 2 ::ₘ {Nodes 1})
        = (Nodes 0 ::ₘ Nodes 1 ::ₘ Nodes 2 ::ₘ {Nodes 3})
    rw [Multiset.cons_swap (Nodes 3) (Nodes 2)]
    rw [show ({Nodes 1} : Multiset ℕ) = Nodes 1 ::ₘ 0 from rfl]
    rw [Multiset.cons_swap (Nodes 3) (Nodes 1)]
    rw [Multiset.cons_swap (Nodes 2) (Nodes 1)]
    rfl
  · funext k
    fin_cases k <;> rfl

/-- C9: SetConjugateHeatVariable relaxes the stored value toward the
supplied one, relaxation factor 1 stores the supplied value exactly,
relaxation factor 0 leaves the stored value unchanged, and
GetConjugateHeatVariable on the same triple returns the relaxed value. -/
theorem SetConjugateHeatVariable_relaxes (HCV : ℕ → ℕ → Fin 4 → ℚ)
    (m v : ℕ) (p : Fin 4) (rf val : ℚ) :
    GetConjugateHeatVariable (SetConjugateHeatVariable HCV m v p rf val) m v p
      = rf * val + (1 - rf) * HCV m v p ∧
    GetConjugateHeatVariable (SetConjugateHeatVariable HCV m v p 1 val) m v p = val ∧
    GetConjugateHeatVariable (SetConjugateHeatVariable HCV m v p 0 val) m v p
      = HCV m v p := by
  refine ⟨?_, ?_, ?_⟩ <;>
    simp [GetConjugateHeatVariable, SetConjugateHeatVariable]

/-- C5: a point whose control volume is exactly zero is assigned a zero
local time step, for every value of the inviscid and viscous spectral
radii, so neither division is taken at such a point. -/
theorem SetTime_Step_point_zero_volume (CFL lambdaInv lambdaVisc Max_DeltaTime : ℚ) :
    SetTime_Step_point CFL 0 lambdaInv lambdaVisc Max_DeltaTime = 0 := by
  simp [SetTime_Step_point]

/-- C6: in dual-time mode with an explicit scheme the final local step is
min((2/3)*Delta_UnstTimeND, previously computed step), hence never exceeds
two-thirds of the physical step; with an implicit scheme the clip is not
applied and the previously computed step is kept. -/
theorem SetTime_Step_dualTime_explicit_clip
    (Delta_UnstTimeND CFL Vol lambdaInv lambdaVisc Max_DeltaTime : ℚ) :
    SetTime_Step_dualTime false Delta_UnstTimeND CFL Vol lambdaInv lambdaVisc Max_DeltaTime
      = min (2 / 3 * Delta_UnstTimeND)
          (SetTime_Step_point CFL Vol lambdaInv lambdaVisc Max_DeltaTime) ∧
    SetTime_Step_dualTime false Delta_UnstTimeND CFL Vol lambdaInv lambdaVisc Max_DeltaTime
      ≤ 2 / 3 * Delta_UnstTimeND ∧
    SetTime_Step_dualTime true Delta_UnstTimeND CFL Vol lambdaInv lambdaVisc Max_DeltaTime
      = SetTime_Step_point CFL Vol lambdaInv lambdaVisc Max_DeltaTime := by
  refine ⟨rfl, ?_, rfl⟩
  exact min_le_left _ _

/-- C4: with Twall = 300, neighbor temperature 350 and distance 1/100 the
isothermal-wall routine computes dTdn = -5000, and with thermal
conductivity 26/1000 the energy viscous residual is
thermal_conductivity * dTdn * Area for every boundary area. -/
theorem BC_Isothermal_Wall_scenario :
    BC_Isothermal_dTdn 300 350 (1 / 100) = -5000 ∧
    ∀ Area : ℚ,
      BC_Isothermal_ResViscEnergy (26 / 1000) (BC_Isothermal_dTdn 300 350 (1 / 100)) Area
        = 26 / 1000 * (-5000) * Area := by
  constructor
  · norm_num [BC_Isothermal_dTdn]
  · intro Area
    norm_num [BC_Isothermal_dTdn, BC_Isothermal_ResViscEnergy]

/-- Summing a residual component over all points after AddBlock adds the
flux component once. -/
theorem sum_AddBlock {nP nV : ℕ} (R : Fin nP → Fin nV → ℚ) (j : Fin nP)
    (f : Fin nV → ℚ) (v : Fin nV) :
    ∑ p, AddBlock R j f p v = (∑ p, R p v) + f v := by
  have h : ∀ p : Fin nP, AddBlock R j f p v = R p v + (if p = j then f v else 0) := by
    intro p
    unfold AddBlock
    split <;> simp
  simp only [h, Finset.sum_add_distrib, Finset.sum_ite_eq', Finset.mem_univ, if_true]

/-- Summing a residual component over all points after SubtractBlock
removes the flux component once. -/
theorem sum_SubtractBlock {nP nV : ℕ} (R : Fin nP → Fin nV → ℚ) (i : Fin nP)
    (f : Fin nV → ℚ) (v : Fin nV) :
    ∑ p, SubtractBlock R i f p v = (∑ p, R p v) - f v := by
  have h : ∀ p : Fin nP, SubtractBlock R i f p v = R p v - (if p = i then f v else 0) := by
    intro p
    unfold SubtractBlock
    split <;> simp
  simp only [h, Finset.sum_sub_distrib, Finset.sum_ite_eq', Finset.mem_univ, if_true]

/-- One viscous edge update leaves the total of every residual component
unchanged. -/
theorem sum_Viscous_Residual_edge {nP nV : ℕ} (R : Fin nP → Fin nV → ℚ)
    (i j : Fin nP) (f : Fin nV → ℚ) (v : Fin nV) :
    ∑ p, Viscous_Residual_edge R i j f p v = ∑ p, R p v := by
  unfold Viscous_Residual_edge
  rw [sum_AddBlock, sum_SubtractBlock]
  ring

/-- The whole viscous edge loop leaves the total of every residual
component unchanged. -/
theorem sum_Viscous_Residual_loop {nP nV : ℕ}
    (edges : List ((Fin nP × Fin nP) × (Fin nV → ℚ)))
    (R : Fin nP → Fin nV → ℚ) (v : Fin nV) :
    ∑ p, Viscous_Residual_loop edges R p v = ∑ p, R p v := by
  induction edges generalizing R with
  | nil => rfl
  | cons e es ih =>
      show ∑ p, Viscous_Residual_loop es (Viscous_Residual_edge R e.1.1 e.1.2 e.2) p v
            = ∑ p, R p v
      rw [ih, sum_Viscous_Residual_edge]

/-- C1: for an interior edge the identical per-edge flux vector is
subtracted from the residual of iPoint and added to the residual of
jPoint, every other point is untouched, the net contribution of the edge
to the sum of the two endpoint residuals is zero, and the whole edge
loop preserves the total residual of every component, for arbitrary
states, fluxes and edge lists. -/
theorem Viscous_Residual_edge_conservation {nP nV : ℕ}
    (R : Fin nP → Fin nV → ℚ) (iPoint jPoint : Fin nP) (residual : Fin nV → ℚ)
    (v : Fin nV) (hij : iPoint ≠ jPoint) :
    Viscous_Residual_edge R iPoint jPoint residual iPoint v = R iPoint v - residual v ∧
    Viscous_Residual_edge R iPoint jPoint residual jPoint v = R jPoint v + residual v ∧
    (∀ p : Fin nP, p ≠ iPoint → p ≠ jPoint →
      Viscous_Residual_edge R iPoint jPoint residual p v = R p v) ∧
    Viscous_Residual_edge R iPoint jPoint residual iPoint v +
      Viscous_Residual_edge R iPoint jPoint residual jPoint v
      = R iPoint v + R jPoint v ∧
    ∀ (edges : List ((Fin nP × Fin nP) × (Fin nV → ℚ))) (S : Fin nP → Fin nV → ℚ),
      ∑ p, Viscous_Residual_loop edges S p v = ∑ p, S p v := by
  have h1 : Viscous_Residual_edge R iPoint jPoint residual iPoint v
      = R iPoint v - residual v := by
    simp [Viscous_Residual_edge, AddBlock, SubtractBlock, hij]
  have h2 : Viscous_Residual_edge R iPoint jPoint residual jPoint v
      = R jPoint v + residual v := by
    simp [Viscous_Residual_edge, AddBlock, SubtractBlock, Ne.symm hij]
  refine ⟨h1, h2, ?_, ?_, ?_⟩
  · intro p hpi hpj
    simp [Viscous_Residual_edge, AddBlock, SubtractBlock, hpi, hpj]
  · rw [h1, h2]
    ring
  · intro edges S
    exact sum_Viscous_Residual_loop edges S v

/-- Witness for C1 at a concrete two-point, one-variable grid. -/
theorem Viscous_Residual_edge_conservation_witness :
    ((0 : Fin 2) ≠ (1 : Fin 2)) ∧
    (Viscous_Residual_edge (fun _ _ => (5 : ℚ)) (0 : Fin 2) 1 (fun _ => 2) 0 (0 : Fin 1)
        = (fun _ _ => (5 : ℚ)) (0 : Fin 2) (0 : Fin 1) - (fun _ => (2 : ℚ)) (0 : Fin 1) ∧
      Viscous_Residual_edge (fun _ _ => (5 : ℚ)) (0 : Fin 2) 1 (fun _ => 2) 1 (0 : Fin 1)
        = (fun _ _ => (5 : ℚ)) (1 : Fin 2) (0 : Fin 1) + (fun _ => (2 : ℚ)) (0 : Fin 1) ∧
      (∀ p : Fin 2, p ≠ 0 → p ≠ 1 →
        Viscous_Residual_edge (fun _ _ => (5 : ℚ)) (0 : Fin 2) 1 (fun _ => 2) p (0 : Fin 1)
          = (fun _ _ => (5 : ℚ)) p (0 : Fin 1)) ∧
      Viscous_Residual_edge (fun _ _ => (5 : ℚ)) (0 : Fin 2) 1 (fun _ => 2) 0 (0 : Fin 1) +
        Viscous_Residual_edge (fun _ _ => (5 : ℚ)) (0 : Fin 2) 1 (fun _ => 2) 1 (0 : Fin 1)
        = (fun _ _ => (5 : ℚ)) (0 : Fin 2) (0 : Fin 1) + (fun _ _ => (5 : ℚ)) (1 : Fin 2) (0 : Fin 1) ∧
      ∀ (edges : List ((Fin 2 × Fin 2) × (Fin 1 → ℚ))) (S : Fin 2 → Fin 1 → ℚ),
        ∑ p, Viscous_Residual_loop edges S p (0 : Fin 1) = ∑ p, S p (0 : Fin 1)) :=
  ⟨by decide,
   Viscous_Residual_edge_conservation (fun _ _ => (5 : ℚ)) 0 1 (fun _ => 2) 0 (by decide)⟩

/-- C2: for a point with nonzero control volume the stored local step is
the minimum of CFL*Vol/lambda_inv and CFL*K_v*Vol^2/lambda_visc further
clipped at Max_DeltaTime, with K_v the fixed constant 1/4. -/
theorem SetTime_Step_point_min_clip (CFL Vol lambdaInv lambdaVisc Max_DeltaTime : ℚ)
    (hVol : Vol ≠ 0) :
    SetTime_Step_point CFL Vol lambdaInv lambdaVisc Max_DeltaTime
      = min (min (CFL * Vol / lambdaInv) (CFL * K_v * Vol * Vol / lambdaVisc))
          Max_DeltaTime ∧
    K_v = 1 / 4 := by
  refine ⟨?_, rfl⟩
  unfold SetTime_Step_point
  rw [if_pos hVol]
  show (if min (CFL * Vol / lambdaInv) (CFL * K_v * Vol * Vol / lambdaVisc) > Max_DeltaTime
        then Max_DeltaTime
        else min (CFL * Vol / lambdaInv) (CFL * K_v * Vol * Vol / lambdaVisc)) = _
  rcases le_or_lt (min (CFL * Vol / lambdaInv) (CFL * K_v * Vol * Vol / lambdaVisc))
      Max_DeltaTime with h | h
  · rw [if_neg (not_lt.mpr h), min_eq_left h]
  · rw [if_pos h, min_eq_right h.le]

/-- Witness for C2 at a concrete point. -/
theorem SetTime_Step_point_min_clip_witness :
    ((1 : ℚ) ≠ 0) ∧
    (SetTime_Step_point 1 1 1 1 1
        = min (min (1 * 1 / 1) (1 * K_v * 1 * 1 / 1)) 1 ∧
      K_v = 1 / 4) :=
  ⟨one_ne_zero, SetTime_Step_point_min_clip 1 1 1 1 1 one_ne_zero⟩

/-- C3: the flux-weighted CHT wall temperature equals
(There*HF_FactorHere + Tconjugate*HF_FactorConjugate) /
(HF_FactorHere + HF_FactorConjugate); with equal conductance factors it
is the arithmetic mean of the two temperatures, and as either
conductance factor tends to zero it tends to the temperature weighted by
the other factor. -/
theorem Twall_fluxWeighted_mean_and_limits
    (There Tconjugate HF_FactorHere HF_FactorConjugate : ℚ)
    (hHere : HF_FactorHere ≠ 0) (hConj : HF_FactorConjugate ≠ 0) :
    Twall_fluxWeighted There Tconjugate HF_FactorHere HF_FactorConjugate
      = (There * HF_FactorHere + Tconjugate * HF_FactorConjugate) /
          (HF_FactorHere + HF_FactorConjugate) ∧
    (HF_FactorHere = HF_FactorConjugate →
      Twall_fluxWeighted There Tconjugate HF_FactorHere HF_FactorConjugate
        = (There + Tconjugate) / 2) ∧
    Filter.Tendsto (fun c => Twall_fluxWeighted There Tconjugate HF_FactorHere c)
      (nhds 0) (nhds There) ∧
    Filter.Tendsto (fun h => Twall_fluxWeighted There Tconjugate h HF_FactorConjugate)
      (nhds 0) (nhds Tconjugate) := by
  refine ⟨rfl, ?_, ?_, ?_⟩
  · intro heq
    unfold Twall_fluxWeighted
    rw [heq]
    field_simp [hConj]
    ring
  · have hcont : ContinuousAt
        (fun c : ℚ => (There * HF_FactorHere + Tconjugate * c) /
          (HF_FactorHere + c)) 0 := by
      apply ContinuousAt.div
      · fun_prop
      · fun_prop
      · simpa using hHere
    simpa [Twall_fluxWeighted, mul_div_assoc, div_self hHere] using hcont.tendsto
  · have hcont : ContinuousAt
        (fun h : ℚ => (There * h + Tconjugate * HF_FactorConjugate) /
          (h + HF_FactorConjugate)) 0 := by
      apply ContinuousAt.div
      · fun_prop
      · fun_prop
      · simpa using hConj
    simpa [Twall_fluxWeighted, mul_div_assoc, div_self hConj] using hcont.tendsto

/-- Witness for C3 at concrete temperatures 350 and 300 with unit
conductance factors. -/
theorem Twall_fluxWeighted_mean_and_limits_witness :
    ((1 : ℚ) ≠ 0) ∧ ((1 : ℚ) ≠ 0) ∧
    (Twall_fluxWeighted 350 300 1 1 = (350 * 1 + 300 * 1) / (1 + 1) ∧
      ((1 : ℚ) = 1 → Twall_fluxWeighted 350 300 1 1 = (350 + 300) / 2) ∧
      Filter.Tendsto (fun c => Twall_fluxWeighted 350 300 1 c) (nhds 0) (nhds 350) ∧
      Filter.Tendsto (fun h => Twall_fluxWeighted 350 300 h 1) (nhds 0) (nhds 300)) :=
  ⟨one_ne_zero, one_ne_zero,
   Twall_fluxWeighted_mean_and_limits 350 300 1 1 one_ne_zero one_ne_zero⟩

/-- C7 counterexample: BC_HeatFlux_Wall raises no fatal error for a
wall-function treatment other than none, because its guard is commented
out in the source; the routine proceeds normally. -/
theorem BC_HeatFlux_Wall_wallFunction_counterexample :
    STANDARD_WALL_FUNCTION ≠ NO_WALL_FUNCTION ∧
    BC_HeatFlux_Wall_wallFunctionCheck STANDARD_WALL_FUNCTION = Except.ok () :=
  ⟨by decide, rfl⟩

/-- C7 amended: BC_Isothermal_Wall and BC_ConjugateHeat_Interface raise a
fatal error before any vertex is processed when the wall-function
treatment is not none, and BC_ConjugateHeat_Interface raises a fatal
error for an unrecognized CHT coupling kind; BC_HeatFlux_Wall performs
no wall-function check at all (its guard is commented out) and proceeds
for every treatment value. -/
theorem BC_wallFunction_error_policy (Wall_Function Kind_CHT_Coupling : ℕ)
    (hwf : Wall_Function ≠ NO_WALL_FUNCTION)
    (hkind : Kind_CHT_Coupling ≠ AVERAGED_TEMPERATURE_NEUMANN_HEATFLUX ∧
             Kind_CHT_Coupling ≠ AVERAGED_TEMPERATURE_ROBIN_HEATFLUX ∧
             Kind_CHT_Coupling ≠ DIRECT_TEMPERATURE_NEUMANN_HEATFLUX ∧
             Kind_CHT_Coupling ≠ DIRECT_TEMPERATURE_ROBIN_HEATFLUX) :
    (∃ msg, BC_Isothermal_Wall_wallFunctionCheck Wall_Function = Except.error msg) ∧
    (∃ msg, BC_ConjugateHeat_Interface_wallFunctionCheck Wall_Function = Except.error msg) ∧
    (∀ T0 T2 Tref vref There k d : ℚ,
      ∃ msg, BC_ConjugateHeat_Twall Kind_CHT_Coupling T0 T2 Tref vref There k d
              = Except.error msg) ∧
    (∀ wf : ℕ, BC_HeatFlux_Wall_wallFunctionCheck wf = Except.ok ()) := by
  obtain ⟨k1, k2, k3, k4⟩ := hkind
  refine ⟨?_, ?_, ?_, fun _ => rfl⟩
  · unfold BC_Isothermal_Wall_wallFunctionCheck
    rw [if_pos hwf]
    exact ⟨_, rfl⟩
  · unfold BC_ConjugateHeat_Interface_wallFunctionCheck
    rw [if_pos hwf]
    exact ⟨_, rfl⟩
  · intro T0 T2 Tref vref There k d
    have hc1 : ¬(Kind_CHT_Coupling = AVERAGED_TEMPERATURE_NEUMANN_HEATFLUX ∨
                 Kind_CHT_Coupling = AVERAGED_TEMPERATURE_ROBIN_HEATFLUX) := by
      rintro (h | h)
      · exact k1 h
      · exact k2 h
    have hc2 : ¬(Kind_CHT_Coupling = DIRECT_TEMPERATURE_NEUMANN_HEATFLUX ∨
                 Kind_CHT_Coupling = DIRECT_TEMPERATURE_ROBIN_HEATFLUX) := by
      rintro (h | h)
      · exact k3 h
      · exact k4 h
    simp only [BC_ConjugateHeat_Twall]
    rw [if_neg hc1, if_neg hc2]
    exact ⟨_, rfl⟩

/-- Witness for the amended C7 at treatment code 1 and coupling code 99. -/
theorem BC_wallFunction_error_policy_witness :
    ((1 : ℕ) ≠ NO_WALL_FUNCTION) ∧
    ((99 : ℕ) ≠ AVERAGED_TEMPERATURE_NEUMANN_HEATFLUX ∧
      (99 : ℕ) ≠ AVERAGED_TEMPERATURE_ROBIN_HEATFLUX ∧
      (99 : ℕ) ≠ DIRECT_TEMPERATURE_NEUMANN_HEATFLUX ∧
      (99 : ℕ) ≠ DIRECT_TEMPERATURE_ROBIN_HEATFLUX) ∧
    ((∃ msg, BC_Isothermal_Wall_wallFunctionCheck 1 = Except.error msg) ∧
      (∃ msg, BC_ConjugateHeat_Interface_wallFunctionCheck 1 = Except.error msg) ∧
      (∀ T0 T2 Tref vref There k d : ℚ,
        ∃ msg, BC_ConjugateHeat_Twall 99 T0 T2 Tref vref There k d = Except.error msg) ∧
      (∀ wf : ℕ, BC_HeatFlux_Wall_wallFunctionCheck wf = Except.ok ())) :=
  ⟨by decide, by decide, BC_wallFunction_error_policy 1 99 (by decide) (by decide)⟩

/-- C10 amended: after the constructor, the conjugate-heat array holds
the non-dimensional free-stream temperature in component 0 and zero in
components 1 through 3; before any coupling data has been received the
direct-temperature CHT branch therefore imposes
Temperature_FreeStreamND/Temperature_Ref as the wall temperature, which
is the free-stream value exactly when Temperature_Ref = 1. -/
theorem HeatConjugateVar_init_direct_Twall
    (Temperature_FreeStreamND Temperature_Ref : ℚ) (m v : ℕ) :
    GetConjugateHeatVariable (HeatConjugateVar_init Temperature_FreeStreamND) m v 0
      = Temperature_FreeStreamND ∧
    GetConjugateHeatVariable (HeatConjugateVar_init Temperature_FreeStreamND) m v 1 = 0 ∧
    GetConjugateHeatVariable (HeatConjugateVar_init Temperature_FreeStreamND) m v 2 = 0 ∧
    GetConjugateHeatVariable (HeatConjugateVar_init Temperature_FreeStreamND) m v 3 = 0 ∧
    (∀ T2 vref There k d : ℚ,
      BC_ConjugateHeat_Twall DIRECT_TEMPERATURE_NEUMANN_HEATFLUX
        (GetConjugateHeatVariable (HeatConjugateVar_init Temperature_FreeStreamND) m v 0)
        T2 Temperature_Ref vref There k d
        = Except.ok (Temperature_FreeStreamND / Temperature_Ref)) ∧
    (∀ T2 vref There k d : ℚ,
      BC_ConjugateHeat_Twall DIRECT_TEMPERATURE_NEUMANN_HEATFLUX
        (GetConjugateHeatVariable (HeatConjugateVar_init Temperature_FreeStreamND) m v 0)
        T2 1 vref There k d
        = Except.ok Temperature_FreeStreamND) := by
  refine ⟨rfl, rfl, rfl, rfl, ?_, ?_⟩ <;>
    · intro T2 vref There k d
      simp [BC_ConjugateHeat_Twall, GetConjugateHeatVariable, HeatConjugateVar_init,
            DIRECT_TEMPERATURE_NEUMANN_HEATFLUX, DIRECT_TEMPERATURE_ROBIN_HEATFLUX,
            AVERAGED_TEMPERATURE_NEUMANN_HEATFLUX, AVERAGED_TEMPERATURE_ROBIN_HEATFLUX]

/-- C10 counterexample: with the constructor value 300 stored in
component 0 and Temperature_Ref = 2, the direct-temperature branch
imposes 150, not the stored free-stream temperature 300. -/
theorem BC_ConjugateHeat_direct_counterexample :
    BC_ConjugateHeat_Twall DIRECT_TEMPERATURE_NEUMANN_HEATFLUX
      (GetConjugateHeatVariable (HeatConjugateVar_init 300) 0 0 0) 0 2 1 0 0 1
      = Except.ok 150 ∧ (150 : ℚ) ≠ 300 := by
  constructor
  · norm_num [BC_ConjugateHeat_Twall, GetConjugateHeatVariable, HeatConjugateVar_init,
              DIRECT_TEMPERATURE_NEUMANN_HEATFLUX, DIRECT_TEMPERATURE_ROBIN_HEATFLUX,
              AVERAGED_TEMPERATURE_NEUMANN_HEATFLUX, AVERAGED_TEMPERATURE_ROBIN_HEATFLUX]
  · norm_num
